import Mathlib

/-!
Shallow embedding of the theater-statement program (src/statement.h,
src/statement.cpp, src/make_statement_data.h, src/make_statement_data.cpp,
src/statement_test.cpp).

Conventions of the embedding:
- the C++ enum class Play::Type is an Int (its underlying type); the named
  enumerators Tragedy and Comedy are 0 and 1, and any other Int models an
  out-of-range enum value such as the static_cast<Play::Type>(-1) of the test;
- C++ int arithmetic is Int (the spec declares overflow out of scope);
- C++ integer division (truncation toward zero) is Int.tdiv;
- code that throws returns Except StatementError: unknownPlay models the
  std::out_of_range thrown by std::map::at, unknownGenre the
  std::runtime_error thrown for a Play::Type outside the switch, carrying
  the formatted message;
- std::map<std::string, Play> is an association list with List.lookup.
-/

/-- Underlying type of the C++ enum class Play::Type (statement.h). -/
abbrev PlayType := Int

/-- Enumerator Play::Type::Tragedy, underlying value 0. -/
def PlayType.Tragedy : PlayType := 0

/-- Enumerator Play::Type::Comedy, underlying value 1. -/
def PlayType.Comedy : PlayType := 1

/-- struct Play of statement.h. -/
structure Play where
  name : String
  type : PlayType
  deriving Repr, DecidableEq

/-- struct Performance of statement.h. -/
structure Performance where
  play_id : String
  audience : Int
  deriving Repr, DecidableEq

/-- struct Invoice of statement.h. -/
structure Invoice where
  customer : String
  performances : List Performance
  deriving Repr, DecidableEq

/-- The catalog std::map<std::string, Play>, as an association list. -/
abbrev Plays := List (String × Play)

/-- The two failure modes of the program: unknownPlay is the
std::out_of_range raised by plays.at on a missing key (carrying the key),
unknownGenre the std::runtime_error raised on a Play::Type outside the
switch (carrying the formatted message). -/
inductive StatementError where
  | unknownPlay (play_id : String)
  | unknownGenre (msg : String)
  deriving Repr, DecidableEq

/-- The message std::format("\x7b\x7d: unknown Play::Type", static_cast<int>(type))
built at both throw sites (make_statement_data.cpp line 71, statement.cpp lines 88-90). -/
def unknown_type_message (type : PlayType) : String :=
  toString type ++ ": unknown Play::Type"

/-- Models std::ranges::copy over invoice.performances | std::views::transform(f)
into a vector: the elements are transformed left to right and a thrown
exception propagates, aborting the traversal. -/
def mapE (f : α → Except ε β) : List α → Except ε (List β)
  | [] => pure []
  | x :: xs => do
    let y ← f x
    let ys ← mapE f xs
    pure (y :: ys)

/-- struct EnrichedPerformance (make_statement_data.h; statement.cpp has an
identical local struct whose amount and volume_credits are
value-initialized to 0, hence the defaults). -/
structure EnrichedPerformance where
  base : Performance
  play : Play
  amount : Int := 0
  volume_credits : Int := 0
  deriving Repr, DecidableEq

/-- struct StatementData of make_statement_data.h. -/
structure StatementData where
  customer : String
  performances : List EnrichedPerformance
  total_amount : Int
  total_volume_credits : Int
  deriving Repr, DecidableEq

/-- struct PerformanceData of make_statement_data.cpp. -/
structure PerformanceData where
  performance : Performance
  play : Play
  deriving Repr, DecidableEq

/-- The non-virtual base implementation PerformanceCalculator::volume_credits_for
(make_statement_data.cpp lines 18-21): std::max(audience - 30, 0). -/
def PerformanceCalculator.volume_credits_for (data : PerformanceData) : Int :=
  max (data.performance.audience - 30) 0

/-- TragedyPerformanceCalculator::amount_for (make_statement_data.cpp lines 29-36). -/
def TragedyPerformanceCalculator.amount_for (data : PerformanceData) : Int :=
  let amount : Int := 40000
  let amount :=
    if data.performance.audience > 30 then
      amount + 1000 * (data.performance.audience - 30)
    else amount
  amount

/-- ComedyPerformanceCalculator::amount_for (make_statement_data.cpp lines 41-49). -/
def ComedyPerformanceCalculator.amount_for (data : PerformanceData) : Int :=
  let amount : Int := 30000
  let amount :=
    if data.performance.audience > 20 then
      amount + (10000 + 500 * (data.performance.audience - 20))
    else amount
  let amount := amount + 300 * data.performance.audience
  amount

/-- ComedyPerformanceCalculator::volume_credits_for (make_statement_data.cpp
lines 51-56): the base implementation plus audience / 5 in C++ int division. -/
def ComedyPerformanceCalculator.volume_credits_for (data : PerformanceData) : Int :=
  let volume_credits := PerformanceCalculator.volume_credits_for data
  volume_credits + Int.tdiv data.performance.audience 5

/-- The two concrete subclasses of PerformanceCalculator; virtual dispatch
through a const reference becomes dispatch on this tag. -/
inductive Calculator where
  | Tragedy
  | Comedy
  deriving Repr, DecidableEq

/-- Virtual dispatch of amount_for to the concrete calculator. -/
def Calculator.amount_for : Calculator → PerformanceData → Int
  | .Tragedy, data => TragedyPerformanceCalculator.amount_for data
  | .Comedy, data => ComedyPerformanceCalculator.amount_for data

/-- Virtual dispatch of volume_credits_for: Tragedy inherits the base
implementation, Comedy overrides it. -/
def Calculator.volume_credits_for : Calculator → PerformanceData → Int
  | .Tragedy, data => PerformanceCalculator.volume_credits_for data
  | .Comedy, data => ComedyPerformanceCalculator.volume_credits_for data

/-- get_performance_calculator (make_statement_data.cpp lines 59-73): the
switch over Play::Type, throwing on any other value. -/
def get_performance_calculator (type : PlayType) : Except StatementError Calculator :=
  if type = PlayType.Tragedy then pure Calculator.Tragedy
  else if type = PlayType.Comedy then pure Calculator.Comedy
  else throw (StatementError.unknownGenre (unknown_type_message type))

/-- The play_for lambdas of make_statement_data.cpp (lines 79-82) and
statement.cpp (lines 65-68): plays.at(perf.play_id), throwing
std::out_of_range on a missing key. -/
def play_for (plays : Plays) (perf : Performance) : Except StatementError Play :=
  match plays.lookup perf.play_id with
  | some play => pure play
  | none => throw (StatementError.unknownPlay perf.play_id)

/-- The enrich_performance lambda of make_statement_data.cpp (lines 84-95). -/
def enrich_performance (plays : Plays) (perf : Performance) :
    Except StatementError EnrichedPerformance := do
  let data : PerformanceData := { performance := perf, play := ← play_for plays perf }
  let calculator ← get_performance_calculator data.play.type
  pure { base := perf
         play := data.play
         amount := calculator.amount_for data
         volume_credits := calculator.volume_credits_for data }

/-- make_statement_data (make_statement_data.cpp lines 77-116): enrich every
performance, then total the amounts and the volume credits with
std::accumulate from 0. -/
def make_statement_data (invoice : Invoice) (plays : Plays) :
    Except StatementError StatementData := do
  let enriched_performances ← mapE (enrich_performance plays) invoice.performances
  let total_amount :=
    enriched_performances.foldl (fun sum perf => sum + perf.amount) 0
  let total_volume_credits :=
    enriched_performances.foldl (fun sum perf => sum + perf.volume_credits) 0
  pure { customer := invoice.customer
         performances := enriched_performances
         total_amount := total_amount
         total_volume_credits := total_volume_credits }

/-- Helper for usd: groups a least-significant-first digit list in threes,
inserting the en_US thousands separator. -/
def commaGroupRev : List Char → List Char
  | c1 :: c2 :: c3 :: c4 :: rest => c1 :: c2 :: c3 :: ',' :: commaGroupRev (c4 :: rest)
  | cs => cs

/-- The usd helper of statement.cpp (lines 7-13): std::put_money with
std::showbase under the en_US.UTF-8 locale, reading the argument as minor
units (cents) and rendering a dollar sign, the dollar amount grouped in
threes by commas, and two cent digits. -/
def usd (amount : Int) : String :=
  let sign := if amount < 0 then "-" else ""
  let dollars := amount.natAbs / 100
  let cents := amount.natAbs % 100
  let dollar_digits := (commaGroupRev (Nat.toDigits 10 dollars).reverse).reverse
  sign ++ "$" ++ String.mk dollar_digits ++ "." ++
    (if cents < 10 then "0" else "") ++ toString cents

namespace Statement

/-- The local struct StatementData of statement.cpp (lines 23-27): no total
fields; the totals are recomputed during rendering. -/
structure StatementData where
  customer : String
  performances : List EnrichedPerformance
  deriving Repr, DecidableEq

/-- The amount_for lambda of statement.cpp (lines 70-93): the switch over
perf.play.type, throwing on any other value. -/
def amount_for (perf : EnrichedPerformance) : Except StatementError Int :=
  if perf.play.type = PlayType.Tragedy then
    let amount : Int := 40000
    let amount :=
      if perf.base.audience > 30 then
        amount + 1000 * (perf.base.audience - 30)
      else amount
    pure amount
  else if perf.play.type = PlayType.Comedy then
    let amount : Int := 30000
    let amount :=
      if perf.base.audience > 20 then
        amount + (10000 + 500 * (perf.base.audience - 20))
      else amount
    let amount := amount + 300 * perf.base.audience
    pure amount
  else
    throw (StatementError.unknownGenre (unknown_type_message perf.play.type))

/-- The volume_credits_for lambda of statement.cpp (lines 95-101). -/
def volume_credits_for (perf : EnrichedPerformance) : Int :=
  let volume_credits : Int := 0
  let volume_credits := volume_credits + max (perf.base.audience - 30) 0
  let volume_credits :=
    if PlayType.Comedy = perf.play.type then
      volume_credits + Int.tdiv perf.base.audience 5
    else volume_credits
  volume_credits

/-- The enrich_performance lambda of statement.cpp (lines 103-114): builds
the record with amount and volume_credits default-initialized, then fills
them in, amount first. -/
def enrich_performance (plays : Plays) (base : Performance) :
    Except StatementError EnrichedPerformance := do
  let enriched : EnrichedPerformance := { base := base, play := ← play_for plays base }
  let amount ← amount_for enriched
  let enriched := { enriched with amount := amount }
  pure { enriched with volume_credits := volume_credits_for enriched }

/-- render_plain_text (statement.cpp lines 29-59): the totals are folds over
the enriched performances, and the report is built line by line with
std::format. -/
def render_plain_text (data : StatementData) : String :=
  let total_amount := data.performances.foldl (fun total perf => total + perf.amount) 0
  let total_volume_credits :=
    data.performances.foldl (fun total perf => total + perf.volume_credits) 0
  "Statement for " ++ data.customer ++ "\n" ++
  String.join (data.performances.map (fun perf =>
    "  " ++ perf.play.name ++ ": " ++ usd perf.amount ++ " (" ++
      toString perf.base.audience ++ " seats)\n")) ++
  "Amount owed is " ++ usd total_amount ++ "\n" ++
  "You earned " ++ toString total_volume_credits ++ " credits\n"

end Statement

/-- statement (statement.cpp lines 63-125): enrich every performance with the
switch-based lambdas, then render the plain-text report. -/
def statement (invoice : Invoice) (plays : Plays) : Except StatementError String := do
  let enriched_performances ← mapE (Statement.enrich_performance plays) invoice.performances
  pure (Statement.render_plain_text
    { customer := invoice.customer, performances := enriched_performances })

/-- Modelled from the spec: the definition of html_statement is absent from
the sources (statement.h line 28 declares it and statement_test.cpp lines
49-64 assert its output, but no translation unit defines it). Per the spec
it renders the same StatementData as the plain-text report: an h1 header, a
table with columns play, seats and cost holding one row per performance in
invoice order, and summary paragraphs with the total amount and the total
volume credits, matching the expected HTML of the test. -/
def render_html (data : StatementData) : String :=
  "<h1>Statement for " ++ data.customer ++ "</h1>\n" ++
  "<table>\n" ++
  "  <tr><th>play</th><th>seats</th><th>cost</th></tr>\n" ++
  String.join (data.performances.map (fun perf =>
    "  <tr><td>" ++ perf.play.name ++ "</td><td>" ++ toString perf.base.audience ++
      "</td><td>" ++ usd perf.amount ++ "</td></tr>\n")) ++
  "</table>\n" ++
  "<p>Amount owed is <em>" ++ usd data.total_amount ++ "</em></p>\n" ++
  "<p>You earned <em>" ++ toString data.total_volume_credits ++ "</em> credits</p>\n"

/-- Modelled from the spec: html_statement builds the same StatementData as
the data-building pipeline and renders it as HTML. -/
def html_statement (invoice : Invoice) (plays : Plays) : Except StatementError String :=
  (make_statement_data invoice plays).map render_html

/-- The catalog of the canonical fixture (statement_test.cpp lines 11-15). -/
def bigco_plays : Plays :=
  [("hamlet", { name := "Hamlet", type := PlayType.Tragedy }),
   ("as-like", { name := "As You Like It", type := PlayType.Comedy }),
   ("othello", { name := "Othello", type := PlayType.Tragedy })]

/-- The invoice of the canonical fixture (statement_test.cpp lines 17-33). -/
def bigco_invoice : Invoice :=
  { customer := "BigCo"
    performances :=
      [{ play_id := "hamlet", audience := 55 },
       { play_id := "as-like", audience := 35 },
       { play_id := "othello", audience := 40 }] }

/-! Helper lemmas about the embedding. -/

theorem mapE_cons_error {f : α → Except ε β} {x : α} {xs : List α} {e : ε}
    (hx : f x = Except.error e) : mapE f (x :: xs) = Except.error e := by
  simp only [mapE, hx, Bind.bind, Except.bind]

theorem mapE_cons_ok_error {f : α → Except ε β} {x : α} {xs : List α} {y : β} {e : ε}
    (hx : f x = Except.ok y) (hxs : mapE f xs = Except.error e) :
    mapE f (x :: xs) = Except.error e := by
  simp only [mapE, hx, hxs, Bind.bind, Except.bind]

theorem mapE_cons_ok_ok {f : α → Except ε β} {x : α} {xs : List α} {y : β} {ys : List β}
    (hx : f x = Except.ok y) (hxs : mapE f xs = Except.ok ys) :
    mapE f (x :: xs) = Except.ok (y :: ys) := by
  simp only [mapE, hx, hxs, Bind.bind, Except.bind, pure, Except.pure]

theorem mapE_cons_ok_inv {f : α → Except ε β} {x : α} {xs : List α} {ys : List β}
    (h : mapE f (x :: xs) = Except.ok ys) :
    ∃ y tail, f x = Except.ok y ∧ mapE f xs = Except.ok tail ∧ ys = y :: tail := by
  simp only [mapE, Bind.bind] at h
  cases hx : f x with
  | error e => rw [hx] at h; simp [Except.bind] at h
  | ok y =>
    rw [hx] at h
    cases hxs : mapE f xs with
    | error e => rw [hxs] at h; simp [Except.bind] at h
    | ok tail =>
      rw [hxs] at h
      simp only [Except.bind, pure, Except.pure] at h
      cases h
      exact ⟨y, tail, rfl, rfl, rfl⟩

theorem mapE_ok_length {f : α → Except ε β} :
    ∀ {l : List α} {ys : List β}, mapE f l = Except.ok ys → ys.length = l.length := by
  intro l
  induction l with
  | nil =>
    intro ys h
    simp only [mapE, pure, Except.pure] at h
    cases h
    rfl
  | cons x xs ih =>
    intro ys h
    obtain ⟨y, tail, _, htail, rfl⟩ := mapE_cons_ok_inv h
    simp [ih htail]

theorem mapE_ok_mem {f : α → Except ε β} :
    ∀ {l : List α} {ys : List β}, mapE f l = Except.ok ys →
      ∀ y ∈ ys, ∃ x ∈ l, f x = Except.ok y := by
  intro l
  induction l with
  | nil =>
    intro ys h
    simp only [mapE, pure, Except.pure] at h
    cases h
    intro y hy
    cases hy
  | cons x xs ih =>
    intro ys h
    obtain ⟨y, tail, hx, htail, rfl⟩ := mapE_cons_ok_inv h
    intro z hz
    rcases List.mem_cons.mp hz with rfl | hz
    · exact ⟨x, List.mem_cons_self x xs, hx⟩
    · obtain ⟨w, hw, hfw⟩ := ih htail z hz
      exact ⟨w, List.mem_cons_of_mem x hw, hfw⟩

theorem mapE_ok_of_forall {f : α → Except ε β} :
    ∀ {l : List α}, (∀ x ∈ l, ∃ y, f x = Except.ok y) →
      ∃ ys, mapE f l = Except.ok ys := by
  intro l
  induction l with
  | nil => intro _; exact ⟨[], rfl⟩
  | cons x xs ih =>
    intro h
    obtain ⟨y, hy⟩ := h x (List.mem_cons_self x xs)
    obtain ⟨tail, htail⟩ := ih (fun z hz => h z (List.mem_cons_of_mem x hz))
    exact ⟨y :: tail, mapE_cons_ok_ok hy htail⟩

theorem mapE_ok_map_eq {f : α → Except ε β} {g : β → α}
    (hg : ∀ x y, f x = Except.ok y → g y = x) :
    ∀ {l : List α} {ys : List β}, mapE f l = Except.ok ys → ys.map g = l := by
  intro l
  induction l with
  | nil =>
    intro ys h
    simp only [mapE, pure, Except.pure] at h
    cases h
    rfl
  | cons x xs ih =>
    intro ys h
    obtain ⟨y, tail, hx, htail, rfl⟩ := mapE_cons_ok_inv h
    simp [hg x y hx, ih htail]

theorem get_performance_calculator_tragedy :
    get_performance_calculator PlayType.Tragedy = Except.ok Calculator.Tragedy := rfl

theorem get_performance_calculator_comedy :
    get_performance_calculator PlayType.Comedy = Except.ok Calculator.Comedy := rfl

theorem get_performance_calculator_unknown {type : PlayType}
    (h0 : type ≠ PlayType.Tragedy) (h1 : type ≠ PlayType.Comedy) :
    get_performance_calculator type =
      Except.error (StatementError.unknownGenre (unknown_type_message type)) := by
  simp [get_performance_calculator, h0, h1, throw, throwThe, MonadExceptOf.throw]

theorem enrich_performance_eq_ok {plays : Plays} {perf : Performance} {play : Play}
    {calculator : Calculator}
    (hlook : plays.lookup perf.play_id = some play)
    (hcalc : get_performance_calculator play.type = Except.ok calculator) :
    enrich_performance plays perf = Except.ok
      { base := perf
        play := play
        amount := calculator.amount_for { performance := perf, play := play }
        volume_credits := calculator.volume_credits_for { performance := perf, play := play } } := by
  simp only [enrich_performance, play_for, hlook, hcalc, Bind.bind, Except.bind, pure, Except.pure]

theorem enrich_performance_unknown_play {plays : Plays} {perf : Performance}
    (hlook : plays.lookup perf.play_id = none) :
    enrich_performance plays perf =
      Except.error (StatementError.unknownPlay perf.play_id) := by
  simp only [enrich_performance, play_for, hlook, Bind.bind, Except.bind, throw, throwThe,
    MonadExceptOf.throw]

theorem enrich_performance_ok_inv {plays : Plays} {perf : Performance}
    {e : EnrichedPerformance} (h : enrich_performance plays perf = Except.ok e) :
    ∃ play calculator,
      plays.lookup perf.play_id = some play ∧
      get_performance_calculator play.type = Except.ok calculator ∧
      e = { base := perf
            play := play
            amount := calculator.amount_for { performance := perf, play := play }
            volume_credits := calculator.volume_credits_for { performance := perf, play := play } } := by
  cases hlook : plays.lookup perf.play_id with
  | none => rw [enrich_performance_unknown_play hlook] at h; cases h
  | some play =>
    cases hcalc : get_performance_calculator play.type with
    | error err =>
      simp only [enrich_performance, play_for, hlook, hcalc, Bind.bind, Except.bind, pure,
        Except.pure] at h
      exact Except.noConfusion h
    | ok calculator =>
      rw [enrich_performance_eq_ok hlook hcalc] at h
      cases h
      exact ⟨play, calculator, rfl, hcalc, rfl⟩

theorem Calculator.Tragedy_amount_for_eq (data : PerformanceData) :
    Calculator.Tragedy.amount_for data =
      40000 + (if 30 < data.performance.audience
               then 1000 * (data.performance.audience - 30) else 0) := by
  simp only [Calculator.amount_for, TragedyPerformanceCalculator.amount_for]
  split <;> omega

theorem Calculator.Comedy_amount_for_eq (data : PerformanceData) :
    Calculator.Comedy.amount_for data =
      30000 + (if 20 < data.performance.audience
               then 10000 + 500 * (data.performance.audience - 20) else 0) +
        300 * data.performance.audience := by
  simp only [Calculator.amount_for, ComedyPerformanceCalculator.amount_for]
  split <;> omega

theorem Calculator.Tragedy_volume_credits_for_eq (data : PerformanceData) :
    Calculator.Tragedy.volume_credits_for data =
      max (data.performance.audience - 30) 0 := rfl

theorem Calculator.Comedy_volume_credits_for_eq (data : PerformanceData) :
    Calculator.Comedy.volume_credits_for data =
      max (data.performance.audience - 30) 0 + Int.tdiv data.performance.audience 5 := rfl

/-! Claim theorems. -/

/-- Claim C1: for every performance of a play with genre Tragedy and audience
a >= 0 whose play id resolves in the catalog, the pricing engine returns
amount = 40000 + (if a > 30 then 1000*(a-30) else 0) and
volume_credits = max(a - 30, 0); the surge term is governed by the strict
comparison a > 30, so at a = 30 there is no surge and the surge begins
strictly above 30. -/
theorem tragedy_pricing (plays : Plays) (pid : String) (play : Play) (a : Int)
    (h0 : 0 ≤ a) (hlook : plays.lookup pid = some play)
    (ht : play.type = PlayType.Tragedy) :
    enrich_performance plays { play_id := pid, audience := a } =
      Except.ok { base := { play_id := pid, audience := a }
                  play := play
                  amount := 40000 + (if a > 30 then 1000 * (a - 30) else 0)
                  volume_credits := max (a - 30) 0 } := by
  have hcalc : get_performance_calculator play.type = Except.ok Calculator.Tragedy := by
    rw [ht]; rfl
  rw [@enrich_performance_eq_ok plays { play_id := pid, audience := a } play
    Calculator.Tragedy hlook hcalc]
  rw [Calculator.Tragedy_amount_for_eq, Calculator.Tragedy_volume_credits_for_eq]

/-- Witness for tragedy_pricing at the boundary audience 30 in the BigCo
catalog: there is no surge term and the credits are 0. -/
theorem tragedy_pricing_witness :
    enrich_performance bigco_plays { play_id := "hamlet", audience := 30 } =
      Except.ok { base := { play_id := "hamlet", audience := 30 }
                  play := { name := "Hamlet", type := PlayType.Tragedy }
                  amount := 40000
                  volume_credits := 0 } := by
  have h := tragedy_pricing bigco_plays "hamlet"
    { name := "Hamlet", type := PlayType.Tragedy } 30 (by decide) (by rfl) rfl
  simpa using h

/-- Claim C2: for every performance of a play with genre Comedy and audience
a >= 0 whose play id resolves in the catalog, the pricing engine returns
amount = 30000 + (if a > 20 then 10000 + 500*(a-20) else 0) + 300*a and
volume_credits = max(a - 30, 0) + a / 5 with the surge term governed by the
strict comparison a > 20 and the a / 5 term computed by integer floor
division (written here as Int floor division, which agrees with the code's
truncating division on the nonnegative domain). -/
theorem comedy_pricing (plays : Plays) (pid : String) (play : Play) (a : Int)
    (h0 : 0 ≤ a) (hlook : plays.lookup pid = some play)
    (ht : play.type = PlayType.Comedy) :
    enrich_performance plays { play_id := pid, audience := a } =
      Except.ok { base := { play_id := pid, audience := a }
                  play := play
                  amount := 30000 + (if a > 20 then 10000 + 500 * (a - 20) else 0) + 300 * a
                  volume_credits := max (a - 30) 0 + a / 5 } := by
  have hcalc : get_performance_calculator play.type = Except.ok Calculator.Comedy := by
    rw [ht]; rfl
  rw [@enrich_performance_eq_ok plays { play_id := pid, audience := a } play
    Calculator.Comedy hlook hcalc]
  rw [Calculator.Comedy_amount_for_eq, Calculator.Comedy_volume_credits_for_eq]
  have htdiv : Int.tdiv a 5 = a / 5 := Int.tdiv_eq_ediv h0 (by norm_num)
  simp only [htdiv]

/-- Witness for comedy_pricing at audience 22 in the BigCo catalog: the
floor-division term contributes 22 / 5 = 4 credits and the surge term is
10000 + 500 * 2. -/
theorem comedy_pricing_witness :
    enrich_performance bigco_plays { play_id := "as-like", audience := 22 } =
      Except.ok { base := { play_id := "as-like", audience := 22 }
                  play := { name := "As You Like It", type := PlayType.Comedy }
                  amount := 47600
                  volume_credits := 4 } := by
  have h := comedy_pricing bigco_plays "as-like"
    { name := "As You Like It", type := PlayType.Comedy } 22 (by decide) (by rfl) rfl
  simpa using h

theorem lookup_mem {plays : Plays} {id : String} {play : Play}
    (h : plays.lookup id = some play) : (id, play) ∈ plays := by
  induction plays with
  | nil => cases h
  | cons entry rest ih =>
    obtain ⟨k, v⟩ := entry
    simp only [List.lookup] at h
    cases hbeq : (id == k) with
    | true =>
      rw [hbeq] at h
      cases h
      have hk : id = k := by simpa using hbeq
      subst hk
      exact List.mem_cons_self _ _
    | false =>
      rw [hbeq] at h
      exact List.mem_cons_of_mem _ (ih h)

theorem foldl_add_eq_sum (g : EnrichedPerformance → Int) :
    ∀ (l : List EnrichedPerformance) (init : Int),
      l.foldl (fun sum perf => sum + g perf) init = init + (l.map g).sum := by
  intro l
  induction l with
  | nil => intro init; simp
  | cons x xs ih =>
    intro init
    simp only [List.foldl_cons, List.map_cons, List.sum_cons, ih]
    ring

theorem make_statement_data_eq_ok {invoice : Invoice} {plays : Plays}
    {enriched : List EnrichedPerformance}
    (hm : mapE (enrich_performance plays) invoice.performances = Except.ok enriched) :
    make_statement_data invoice plays = Except.ok
      { customer := invoice.customer
        performances := enriched
        total_amount := enriched.foldl (fun sum perf => sum + perf.amount) 0
        total_volume_credits := enriched.foldl (fun sum perf => sum + perf.volume_credits) 0 } := by
  simp only [make_statement_data, hm, Bind.bind, Except.bind, pure, Except.pure]

theorem make_statement_data_eq_error {invoice : Invoice} {plays : Plays} {e : StatementError}
    (hm : mapE (enrich_performance plays) invoice.performances = Except.error e) :
    make_statement_data invoice plays = Except.error e := by
  simp only [make_statement_data, hm, Bind.bind, Except.bind]

theorem make_statement_data_ok_inv {invoice : Invoice} {plays : Plays} {sd : StatementData}
    (h : make_statement_data invoice plays = Except.ok sd) :
    ∃ enriched, mapE (enrich_performance plays) invoice.performances = Except.ok enriched ∧
      sd = { customer := invoice.customer
             performances := enriched
             total_amount := enriched.foldl (fun sum perf => sum + perf.amount) 0
             total_volume_credits := enriched.foldl (fun sum perf => sum + perf.volume_credits) 0 } := by
  cases hm : mapE (enrich_performance plays) invoice.performances with
  | error e =>
    rw [make_statement_data_eq_error hm] at h
    exact Except.noConfusion h
  | ok enriched =>
    rw [make_statement_data_eq_ok hm] at h
    cases h
    exact ⟨enriched, rfl, rfl⟩

theorem enrich_performance_ok_base {plays : Plays} {perf : Performance}
    {e : EnrichedPerformance} (h : enrich_performance plays perf = Except.ok e) :
    e.base = perf := by
  obtain ⟨play, calculator, _, _, rfl⟩ := enrich_performance_ok_inv h
  rfl

/-- Claim C3: for every invoice whose play ids all resolve to plays with
recognized genres, make_statement_data succeeds with a StatementData whose
performances sequence projects back to invoice.performances (same length,
same order), and whose totals are exactly the sums of the per-line amounts
and volume credits. -/
theorem make_statement_data_invariants (invoice : Invoice) (plays : Plays)
    (hresolve : ∀ perf ∈ invoice.performances, ∃ play,
      plays.lookup perf.play_id = some play ∧
      (play.type = PlayType.Tragedy ∨ play.type = PlayType.Comedy)) :
    ∃ sd, make_statement_data invoice plays = Except.ok sd ∧
      sd.performances.length = invoice.performances.length ∧
      sd.performances.map EnrichedPerformance.base = invoice.performances ∧
      sd.total_amount = (sd.performances.map EnrichedPerformance.amount).sum ∧
      sd.total_volume_credits = (sd.performances.map EnrichedPerformance.volume_credits).sum := by
  have hexists : ∀ perf ∈ invoice.performances,
      ∃ e, enrich_performance plays perf = Except.ok e := by
    intro perf hperf
    obtain ⟨play, hlook, htype⟩ := hresolve perf hperf
    rcases htype with ht | ht
    · have hcalc : get_performance_calculator play.type = Except.ok Calculator.Tragedy := by
        rw [ht]; rfl
      exact ⟨_, enrich_performance_eq_ok hlook hcalc⟩
    · have hcalc : get_performance_calculator play.type = Except.ok Calculator.Comedy := by
        rw [ht]; rfl
      exact ⟨_, enrich_performance_eq_ok hlook hcalc⟩
  obtain ⟨enriched, hm⟩ := mapE_ok_of_forall hexists
  refine ⟨_, make_statement_data_eq_ok hm, ?_, ?_, ?_, ?_⟩
  · exact mapE_ok_length hm
  · exact mapE_ok_map_eq (fun perf e he => enrich_performance_ok_base he) hm
  · simpa using foldl_add_eq_sum EnrichedPerformance.amount enriched 0
  · simpa using foldl_add_eq_sum EnrichedPerformance.volume_credits enriched 0

/-- Witness for make_statement_data_invariants on the BigCo fixture. -/
theorem make_statement_data_invariants_witness :
    ∃ sd, make_statement_data bigco_invoice bigco_plays = Except.ok sd ∧
      sd.performances.length = bigco_invoice.performances.length ∧
      sd.performances.map EnrichedPerformance.base = bigco_invoice.performances ∧
      sd.total_amount = (sd.performances.map EnrichedPerformance.amount).sum ∧
      sd.total_volume_credits = (sd.performances.map EnrichedPerformance.volume_credits).sum := by
  apply make_statement_data_invariants
  intro perf hperf
  simp only [bigco_invoice, List.mem_cons, List.not_mem_nil, or_false] at hperf
  rcases hperf with rfl | rfl | rfl
  · exact ⟨{ name := "Hamlet", type := PlayType.Tragedy }, rfl, Or.inl rfl⟩
  · exact ⟨{ name := "As You Like It", type := PlayType.Comedy }, rfl, Or.inr rfl⟩
  · exact ⟨{ name := "Othello", type := PlayType.Tragedy }, rfl, Or.inl rfl⟩

theorem Calculator.amount_for_audience_only (c : Calculator) (d1 d2 : PerformanceData)
    (h : d1.performance.audience = d2.performance.audience) :
    c.amount_for d1 = c.amount_for d2 := by
  cases c <;>
    simp only [Calculator.amount_for, TragedyPerformanceCalculator.amount_for,
      ComedyPerformanceCalculator.amount_for, h]

theorem Calculator.volume_credits_for_audience_only (c : Calculator) (d1 d2 : PerformanceData)
    (h : d1.performance.audience = d2.performance.audience) :
    c.volume_credits_for d1 = c.volume_credits_for d2 := by
  cases c <;>
    simp only [Calculator.volume_credits_for, PerformanceCalculator.volume_credits_for,
      ComedyPerformanceCalculator.volume_credits_for, h]

theorem statement_data_enriched_shape {invoice : Invoice} {plays : Plays} {sd : StatementData}
    (h : make_statement_data invoice plays = Except.ok sd) :
    ∀ e ∈ sd.performances, e.base ∈ invoice.performances ∧
      ∃ calculator, get_performance_calculator e.play.type = Except.ok calculator ∧
        e.amount = calculator.amount_for { performance := e.base, play := e.play } ∧
        e.volume_credits = calculator.volume_credits_for { performance := e.base, play := e.play } := by
  obtain ⟨enriched, hm, rfl⟩ := make_statement_data_ok_inv h
  intro e he
  obtain ⟨perf, hperf, hok⟩ := mapE_ok_mem hm e he
  obtain ⟨play, calculator, hlook, hcalc, rfl⟩ := enrich_performance_ok_inv hok
  exact ⟨hperf, calculator, hcalc, rfl, rfl⟩

/-- Claim C7: pricing is pure in (genre, audience): whenever two successful
make_statement_data runs (over any invoices and catalogs, so in particular
with different customers, line positions and surrounding performances) hold
lines whose play genre and audience agree, those lines carry the same
amount and the same volume credits. -/
theorem pricing_purity (inv1 inv2 : Invoice) (plays1 plays2 : Plays)
    (sd1 sd2 : StatementData) (i j : Nat)
    (h1 : make_statement_data inv1 plays1 = Except.ok sd1)
    (h2 : make_statement_data inv2 plays2 = Except.ok sd2)
    (hi : i < sd1.performances.length) (hj : j < sd2.performances.length)
    (htype : (sd1.performances.get ⟨i, hi⟩).play.type =
      (sd2.performances.get ⟨j, hj⟩).play.type)
    (haud : (sd1.performances.get ⟨i, hi⟩).base.audience =
      (sd2.performances.get ⟨j, hj⟩).base.audience) :
    (sd1.performances.get ⟨i, hi⟩).amount = (sd2.performances.get ⟨j, hj⟩).amount ∧
    (sd1.performances.get ⟨i, hi⟩).volume_credits =
      (sd2.performances.get ⟨j, hj⟩).volume_credits := by
  obtain ⟨-, c1, hc1, ha1, hv1⟩ :=
    statement_data_enriched_shape h1 _ (List.get_mem sd1.performances i hi)
  obtain ⟨-, c2, hc2, ha2, hv2⟩ :=
    statement_data_enriched_shape h2 _ (List.get_mem sd2.performances j hj)
  rw [htype] at hc1
  rw [hc1] at hc2
  have hcc : c1 = c2 := Except.ok.inj hc2
  subst hcc
  constructor
  · rw [ha1, ha2]
    exact Calculator.amount_for_audience_only c1 _ _ haud
  · rw [hv1, hv2]
    exact Calculator.volume_credits_for_audience_only c1 _ _ haud

/-- A second fixture for exercising purity: different customer, different
line position for the Tragedy with audience 55, different surrounding
performances. -/
def other_invoice : Invoice :=
  { customer := "Other"
    performances :=
      [{ play_id := "as-like", audience := 10 },
       { play_id := "othello", audience := 55 }] }

/-- The StatementData produced for the BigCo fixture. -/
def bigco_data : StatementData :=
  { customer := "BigCo"
    performances :=
      [{ base := { play_id := "hamlet", audience := 55 }
         play := { name := "Hamlet", type := PlayType.Tragedy }
         amount := 65000
         volume_credits := 25 },
       { base := { play_id := "as-like", audience := 35 }
         play := { name := "As You Like It", type := PlayType.Comedy }
         amount := 58000
         volume_credits := 12 },
       { base := { play_id := "othello", audience := 40 }
         play := { name := "Othello", type := PlayType.Tragedy }
         amount := 50000
         volume_credits := 10 }]
    total_amount := 173000
    total_volume_credits := 47 }

/-- The StatementData produced for the second fixture. -/
def other_data : StatementData :=
  { customer := "Other"
    performances :=
      [{ base := { play_id := "as-like", audience := 10 }
         play := { name := "As You Like It", type := PlayType.Comedy }
         amount := 33000
         volume_credits := 2 },
       { base := { play_id := "othello", audience := 55 }
         play := { name := "Othello", type := PlayType.Tragedy }
         amount := 65000
         volume_credits := 25 }]
    total_amount := 98000
    total_volume_credits := 27 }

/-- Witness for pricing_purity: the Tragedy with audience 55 is priced the
same at position 0 of the BigCo invoice (play hamlet, customer BigCo) and
at position 1 of the Other invoice (play othello, customer Other). -/
theorem pricing_purity_witness :
    (bigco_data.performances.get ⟨0, by decide⟩).amount =
      (other_data.performances.get ⟨1, by decide⟩).amount ∧
    (bigco_data.performances.get ⟨0, by decide⟩).volume_credits =
      (other_data.performances.get ⟨1, by decide⟩).volume_credits :=
  pricing_purity bigco_invoice other_invoice bigco_plays bigco_plays bigco_data other_data 0 1
    (by rfl) (by rfl) (by decide) (by decide) (by rfl) (by rfl)

theorem Calculator.amount_for_lower_bound (c : Calculator) (d : PerformanceData)
    (h : 0 ≤ d.performance.audience) : 30000 ≤ c.amount_for d := by
  cases c
  · rw [Calculator.Tragedy_amount_for_eq]
    split <;> omega
  · rw [Calculator.Comedy_amount_for_eq]
    split <;> omega

theorem Calculator.volume_credits_for_nonneg (c : Calculator) (d : PerformanceData)
    (h : 0 ≤ d.performance.audience) : 0 ≤ c.volume_credits_for d := by
  cases c
  · rw [Calculator.Tragedy_volume_credits_for_eq]
    exact le_max_right _ _
  · rw [Calculator.Comedy_volume_credits_for_eq]
    exact add_nonneg (le_max_right _ _) (Int.tdiv_nonneg h (by norm_num))

theorem make_statement_data_totals {invoice : Invoice} {plays : Plays} {sd : StatementData}
    (h : make_statement_data invoice plays = Except.ok sd) :
    sd.total_amount = (sd.performances.map EnrichedPerformance.amount).sum ∧
    sd.total_volume_credits = (sd.performances.map EnrichedPerformance.volume_credits).sum := by
  obtain ⟨enriched, hm, rfl⟩ := make_statement_data_ok_inv h
  constructor
  · simpa using foldl_add_eq_sum EnrichedPerformance.amount enriched 0
  · simpa using foldl_add_eq_sum EnrichedPerformance.volume_credits enriched 0

/-- Claim C10: on any successful run over performances with nonnegative
audiences, every line's amount is at least 30000 minor units and every
line's volume credits are nonnegative, and hence both totals of the
returned StatementData are nonnegative. -/
theorem pricing_lower_bounds (invoice : Invoice) (plays : Plays) (sd : StatementData)
    (h : make_statement_data invoice plays = Except.ok sd)
    (haud : ∀ perf ∈ invoice.performances, 0 ≤ perf.audience) :
    (∀ e ∈ sd.performances, 30000 ≤ e.amount ∧ 0 ≤ e.volume_credits) ∧
    0 ≤ sd.total_amount ∧ 0 ≤ sd.total_volume_credits := by
  have hper : ∀ e ∈ sd.performances, 30000 ≤ e.amount ∧ 0 ≤ e.volume_credits := by
    intro e he
    obtain ⟨hmem, c, hc, ha, hv⟩ := statement_data_enriched_shape h e he
    have h0 : 0 ≤ e.base.audience := haud _ hmem
    constructor
    · rw [ha]
      exact Calculator.amount_for_lower_bound c _ h0
    · rw [hv]
      exact Calculator.volume_credits_for_nonneg c _ h0
  refine ⟨hper, ?_, ?_⟩
  · rw [(make_statement_data_totals h).1]
    apply List.sum_nonneg
    intro x hx
    obtain ⟨e, he, rfl⟩ := List.mem_map.mp hx
    have := (hper e he).1
    omega
  · rw [(make_statement_data_totals h).2]
    apply List.sum_nonneg
    intro x hx
    obtain ⟨e, he, rfl⟩ := List.mem_map.mp hx
    exact (hper e he).2

/-- Witness for pricing_lower_bounds on the BigCo fixture. -/
theorem pricing_lower_bounds_witness :
    (∀ e ∈ bigco_data.performances, 30000 ≤ e.amount ∧ 0 ≤ e.volume_credits) ∧
    0 ≤ bigco_data.total_amount ∧ 0 ≤ bigco_data.total_volume_credits :=
  pricing_lower_bounds bigco_invoice bigco_plays bigco_data (by rfl) (by decide)

theorem Statement.amount_for_tragedy {perf : EnrichedPerformance}
    (ht : perf.play.type = PlayType.Tragedy) :
    Statement.amount_for perf = Except.ok
      (40000 + (if 30 < perf.base.audience then 1000 * (perf.base.audience - 30) else 0)) := by
  simp only [Statement.amount_for, if_pos ht, pure, Except.pure, Except.ok.injEq]
  split <;> omega

theorem Statement.amount_for_comedy {perf : EnrichedPerformance}
    (hc : perf.play.type = PlayType.Comedy) :
    Statement.amount_for perf = Except.ok
      (30000 + (if 20 < perf.base.audience then 10000 + 500 * (perf.base.audience - 20) else 0) +
        300 * perf.base.audience) := by
  have hne : perf.play.type ≠ PlayType.Tragedy := by
    rw [hc]; decide
  simp only [Statement.amount_for, if_neg hne, if_pos hc, pure, Except.pure, Except.ok.injEq]
  split <;> omega

theorem Statement.amount_for_unknown {perf : EnrichedPerformance}
    (h0 : perf.play.type ≠ PlayType.Tragedy) (h1 : perf.play.type ≠ PlayType.Comedy) :
    Statement.amount_for perf =
      Except.error (StatementError.unknownGenre (unknown_type_message perf.play.type)) := by
  simp only [Statement.amount_for, if_neg h0, if_neg h1, throw, throwThe, MonadExceptOf.throw]

theorem Statement.volume_credits_for_eq (perf : EnrichedPerformance) :
    Statement.volume_credits_for perf =
      max (perf.base.audience - 30) 0 +
        (if PlayType.Comedy = perf.play.type then Int.tdiv perf.base.audience 5 else 0) := by
  simp only [Statement.volume_credits_for]
  split <;> rename_i h <;> simp [h]

theorem Statement.enrich_unknown_play_eq {plays : Plays} {base : Performance}
    (hlook : plays.lookup base.play_id = none) :
    Statement.enrich_performance plays base =
      Except.error (StatementError.unknownPlay base.play_id) := by
  simp only [Statement.enrich_performance, play_for, hlook, Bind.bind, Except.bind, throw,
    throwThe, MonadExceptOf.throw]

theorem Statement.enrich_performance_eval {plays : Plays} {base : Performance} {play : Play}
    {amount : Int} (hlook : plays.lookup base.play_id = some play)
    (hamount : Statement.amount_for { base := base, play := play } = Except.ok amount) :
    Statement.enrich_performance plays base = Except.ok
      { base := base
        play := play
        amount := amount
        volume_credits := Statement.volume_credits_for
          { base := base, play := play, amount := amount } } := by
  simp only [Statement.enrich_performance, play_for, hlook, hamount, Bind.bind, Except.bind,
    pure, Except.pure]

theorem Statement.enrich_performance_unknown_genre {plays : Plays} {base : Performance}
    {play : Play} (hlook : plays.lookup base.play_id = some play)
    (h0 : play.type ≠ PlayType.Tragedy) (h1 : play.type ≠ PlayType.Comedy) :
    Statement.enrich_performance plays base =
      Except.error (StatementError.unknownGenre (unknown_type_message play.type)) := by
  have ha := @Statement.amount_for_unknown { base := base, play := play } h0 h1
  simp only [Statement.enrich_performance, play_for, hlook, ha, Bind.bind, Except.bind,
    pure, Except.pure]

theorem enrich_performance_unknown_play_id_resolved {plays : Plays} {perf : Performance}
    {play : Play} (hlook : plays.lookup perf.play_id = some play)
    (h0 : play.type ≠ PlayType.Tragedy) (h1 : play.type ≠ PlayType.Comedy) :
    enrich_performance plays perf =
      Except.error (StatementError.unknownGenre (unknown_type_message play.type)) := by
  simp only [enrich_performance, play_for, hlook, get_performance_calculator_unknown h0 h1,
    Bind.bind, Except.bind, pure, Except.pure]

theorem enrich_drafts_eq (plays : Plays) (perf : Performance) :
    Statement.enrich_performance plays perf = enrich_performance plays perf := by
  cases hlook : plays.lookup perf.play_id with
  | none =>
    rw [Statement.enrich_unknown_play_eq hlook,
      enrich_performance_unknown_play hlook]
  | some play =>
    by_cases h0 : play.type = PlayType.Tragedy
    · rw [Statement.enrich_performance_eval hlook
        (@Statement.amount_for_tragedy { base := perf, play := play } h0)]
      rw [@enrich_performance_eq_ok plays perf play Calculator.Tragedy hlook (by rw [h0]; rfl)]
      simp only [Except.ok.injEq, EnrichedPerformance.mk.injEq, true_and]
      constructor
      · rw [Calculator.Tragedy_amount_for_eq]
      · rw [Statement.volume_credits_for_eq, Calculator.Tragedy_volume_credits_for_eq]
        have : ¬(PlayType.Comedy = play.type) := by
          rw [h0]; decide
        simp [this]
    · by_cases h1 : play.type = PlayType.Comedy
      · rw [Statement.enrich_performance_eval hlook
          (@Statement.amount_for_comedy { base := perf, play := play } h1)]
        rw [@enrich_performance_eq_ok plays perf play Calculator.Comedy hlook (by rw [h1]; rfl)]
        simp only [Except.ok.injEq, EnrichedPerformance.mk.injEq, true_and]
        constructor
        · rw [Calculator.Comedy_amount_for_eq]
        · rw [Statement.volume_credits_for_eq, Calculator.Comedy_volume_credits_for_eq]
          simp [h1]
      · rw [Statement.enrich_performance_unknown_genre hlook h0 h1,
          enrich_performance_unknown_play_id_resolved hlook h0 h1]

theorem mapE_congr {f g : α → Except ε β} :
    ∀ {l : List α}, (∀ x ∈ l, f x = g x) → mapE f l = mapE g l := by
  intro l
  induction l with
  | nil => intro _; rfl
  | cons x xs ih =>
    intro h
    simp only [mapE, h x (List.mem_cons_self x xs),
      ih (fun z hz => h z (List.mem_cons_of_mem x hz))]

theorem statement_eq_error {invoice : Invoice} {plays : Plays} {e : StatementError}
    (hm : mapE (Statement.enrich_performance plays) invoice.performances = Except.error e) :
    statement invoice plays = Except.error e := by
  simp only [statement, hm, Bind.bind, Except.bind]

/-- Claim C9: for every recognized genre (Tragedy, Comedy) and every
audience value, the switch-based amount_for and volume_credits_for lambdas
inside statement() compute exactly the same (amount, volume_credits) pair
as the PerformanceCalculator class hierarchy selected through
get_performance_calculator. -/
theorem drafts_agree (base : Performance) (play : Play)
    (hrec : play.type = PlayType.Tragedy ∨ play.type = PlayType.Comedy) :
    ∃ calculator, get_performance_calculator play.type = Except.ok calculator ∧
      Statement.amount_for { base := base, play := play } =
        Except.ok (calculator.amount_for { performance := base, play := play }) ∧
      Statement.volume_credits_for { base := base, play := play } =
        calculator.volume_credits_for { performance := base, play := play } := by
  rcases hrec with h | h
  · refine ⟨Calculator.Tragedy, by rw [h]; rfl, ?_, ?_⟩
    · rw [@Statement.amount_for_tragedy { base := base, play := play } h,
        Calculator.Tragedy_amount_for_eq]
    · rw [Statement.volume_credits_for_eq, Calculator.Tragedy_volume_credits_for_eq]
      have hne : ¬(PlayType.Comedy = play.type) := by
        rw [h]; decide
      simp [hne]
  · refine ⟨Calculator.Comedy, by rw [h]; rfl, ?_, ?_⟩
    · rw [@Statement.amount_for_comedy { base := base, play := play } h,
        Calculator.Comedy_amount_for_eq]
    · rw [Statement.volume_credits_for_eq, Calculator.Comedy_volume_credits_for_eq]
      simp [h]

/-- Witness for drafts_agree: the Comedy with audience 35 of the BigCo
fixture gets amount 58000 and 12 credits from both drafts. -/
theorem drafts_agree_witness :
    ∃ calculator,
      get_performance_calculator PlayType.Comedy = Except.ok calculator ∧
      Statement.amount_for
        { base := { play_id := "as-like", audience := 35 }
          play := { name := "As You Like It", type := PlayType.Comedy } } =
        Except.ok (calculator.amount_for
          { performance := { play_id := "as-like", audience := 35 }
            play := { name := "As You Like It", type := PlayType.Comedy } }) ∧
      Statement.volume_credits_for
        { base := { play_id := "as-like", audience := 35 }
          play := { name := "As You Like It", type := PlayType.Comedy } } =
        calculator.volume_credits_for
          { performance := { play_id := "as-like", audience := 35 }
            play := { name := "As You Like It", type := PlayType.Comedy } } :=
  drafts_agree { play_id := "as-like", audience := 35 }
    { name := "As You Like It", type := PlayType.Comedy } (Or.inr rfl)

theorem mapE_enrich_unknown_genre (plays : Plays) :
    ∀ l : List Performance,
      (∀ perf ∈ l, ∃ play, plays.lookup perf.play_id = some play) →
      (∃ perf ∈ l, ∃ play, plays.lookup perf.play_id = some play ∧
        play.type ≠ PlayType.Tragedy ∧ play.type ≠ PlayType.Comedy) →
      ∃ perf ∈ l, ∃ play, plays.lookup perf.play_id = some play ∧
        play.type ≠ PlayType.Tragedy ∧ play.type ≠ PlayType.Comedy ∧
        mapE (enrich_performance plays) l =
          Except.error (StatementError.unknownGenre (unknown_type_message play.type)) := by
  intro l
  induction l with
  | nil =>
    intro _ hbad
    obtain ⟨perf, hperf, -⟩ := hbad
    cases hperf
  | cons x xs ih =>
    intro hresolve hbad
    obtain ⟨playx, hlookx⟩ := hresolve x (List.mem_cons_self x xs)
    by_cases hxrec : playx.type = PlayType.Tragedy ∨ playx.type = PlayType.Comedy
    · have hxok : ∃ e, enrich_performance plays x = Except.ok e := by
        rcases hxrec with h | h
        · have hcalc : get_performance_calculator playx.type = Except.ok Calculator.Tragedy := by
            rw [h]; rfl
          exact ⟨_, enrich_performance_eq_ok hlookx hcalc⟩
        · have hcalc : get_performance_calculator playx.type = Except.ok Calculator.Comedy := by
            rw [h]; rfl
          exact ⟨_, enrich_performance_eq_ok hlookx hcalc⟩
      obtain ⟨ex, hxok⟩ := hxok
      obtain ⟨perf, hperfmem, play, hlook, hn0, hn1⟩ := hbad
      have hperfxs : perf ∈ xs := by
        rcases List.mem_cons.mp hperfmem with rfl | hxs
        · rw [hlookx] at hlook
          cases hlook
          exact absurd hxrec (not_or.mpr ⟨hn0, hn1⟩)
        · exact hxs
      obtain ⟨perf2, hmem2, play2, hlook2, h20, h21, herr⟩ :=
        ih (fun z hz => hresolve z (List.mem_cons_of_mem x hz))
          ⟨perf, hperfxs, play, hlook, hn0, hn1⟩
      exact ⟨perf2, List.mem_cons_of_mem x hmem2, play2, hlook2, h20, h21,
        mapE_cons_ok_error hxok herr⟩
    · push_neg at hxrec
      exact ⟨x, List.mem_cons_self x xs, playx, hlookx, hxrec.1, hxrec.2,
        mapE_cons_error (enrich_performance_unknown_play_id_resolved hlookx hxrec.1 hxrec.2)⟩

/-- Claim C4: for every invoice whose play ids all resolve and which holds a
performance whose play's genre has no calculator in the registry, both the
data-building pipeline and statement() abort with an UnknownGenreError
whose message embeds the raw genre value in the shape
"value: unknown Play::Type"; no StatementData and no text is produced, so
the offending line is not skipped. -/
theorem unknown_genre_aborts (invoice : Invoice) (plays : Plays)
    (hresolve : ∀ perf ∈ invoice.performances, ∃ play, plays.lookup perf.play_id = some play)
    (hbad : ∃ perf ∈ invoice.performances, ∃ play, plays.lookup perf.play_id = some play ∧
      play.type ≠ PlayType.Tragedy ∧ play.type ≠ PlayType.Comedy) :
    ∃ perf ∈ invoice.performances, ∃ play, plays.lookup perf.play_id = some play ∧
      play.type ≠ PlayType.Tragedy ∧ play.type ≠ PlayType.Comedy ∧
      make_statement_data invoice plays = Except.error
        (StatementError.unknownGenre (toString play.type ++ ": unknown Play::Type")) ∧
      statement invoice plays = Except.error
        (StatementError.unknownGenre (toString play.type ++ ": unknown Play::Type")) := by
  obtain ⟨perf, hmem, play, hlook, h0, h1, herr⟩ :=
    mapE_enrich_unknown_genre plays invoice.performances hresolve hbad
  have hcongr : mapE (Statement.enrich_performance plays) invoice.performances =
      mapE (enrich_performance plays) invoice.performances :=
    mapE_congr (fun z hz => enrich_drafts_eq plays z)
  exact ⟨perf, hmem, play, hlook, h0, h1, make_statement_data_eq_error herr,
    statement_eq_error (hcongr.trans herr)⟩

/-- The catalog of the UnknownType test (statement_test.cpp lines 69-71):
the play XYZ carries the out-of-range genre value -1. -/
def xyz_plays : Plays := [("xyz", { name := "XYZ", type := -1 })]

/-- The invoice of the UnknownType test (statement_test.cpp lines 73-81). -/
def utkk_invoice : Invoice :=
  { customer := "UT KK"
    performances := [{ play_id := "xyz", audience := 10 }] }

/-- Witness for unknown_genre_aborts on the UnknownType test fixture: the
computation aborts with the message "-1: unknown Play::Type". -/
theorem unknown_genre_aborts_witness :
    ∃ perf ∈ utkk_invoice.performances, ∃ play, xyz_plays.lookup perf.play_id = some play ∧
      play.type ≠ PlayType.Tragedy ∧ play.type ≠ PlayType.Comedy ∧
      make_statement_data utkk_invoice xyz_plays = Except.error
        (StatementError.unknownGenre (toString play.type ++ ": unknown Play::Type")) ∧
      statement utkk_invoice xyz_plays = Except.error
        (StatementError.unknownGenre (toString play.type ++ ": unknown Play::Type")) :=
  unknown_genre_aborts utkk_invoice xyz_plays
    (by
      intro perf hperf
      simp only [utkk_invoice, List.mem_cons, List.not_mem_nil, or_false] at hperf
      subst hperf
      exact ⟨{ name := "XYZ", type := -1 }, rfl⟩)
    ⟨{ play_id := "xyz", audience := 10 }, by decide,
      { name := "XYZ", type := -1 }, rfl, by decide, by decide⟩

theorem mapE_enrich_unknown_play (plays : Plays)
    (hgenres : ∀ entry ∈ plays,
      entry.2.type = PlayType.Tragedy ∨ entry.2.type = PlayType.Comedy) :
    ∀ l : List Performance,
      (∃ perf ∈ l, plays.lookup perf.play_id = none) →
      ∃ perf ∈ l, plays.lookup perf.play_id = none ∧
        mapE (enrich_performance plays) l =
          Except.error (StatementError.unknownPlay perf.play_id) := by
  intro l
  induction l with
  | nil =>
    intro hbad
    obtain ⟨perf, hperf, -⟩ := hbad
    cases hperf
  | cons x xs ih =>
    intro hbad
    cases hlookx : plays.lookup x.play_id with
    | none =>
      exact ⟨x, List.mem_cons_self x xs, hlookx,
        mapE_cons_error (enrich_performance_unknown_play hlookx)⟩
    | some playx =>
      have hxrec := hgenres (x.play_id, playx) (lookup_mem hlookx)
      have hxok : ∃ e, enrich_performance plays x = Except.ok e := by
        rcases hxrec with h | h
        · have hcalc : get_performance_calculator playx.type = Except.ok Calculator.Tragedy := by
            rw [h]; rfl
          exact ⟨_, enrich_performance_eq_ok hlookx hcalc⟩
        · have hcalc : get_performance_calculator playx.type = Except.ok Calculator.Comedy := by
            rw [h]; rfl
          exact ⟨_, enrich_performance_eq_ok hlookx hcalc⟩
      obtain ⟨ex, hxok⟩ := hxok
      obtain ⟨perf, hperfmem, hlookperf⟩ := hbad
      have hperfxs : perf ∈ xs := by
        rcases List.mem_cons.mp hperfmem with rfl | hxs
        · rw [hlookx] at hlookperf
          cases hlookperf
        · exact hxs
      obtain ⟨perf2, hmem2, hlook2, herr⟩ := ih ⟨perf, hperfxs, hlookperf⟩
      exact ⟨perf2, List.mem_cons_of_mem x hmem2, hlook2, mapE_cons_ok_error hxok herr⟩

/-- Claim C5: for every catalog whose plays all carry recognized genres and
every invoice holding a performance whose play id is absent from the
catalog, statement() (and the data-building pipeline) fails with the
key-not-found UnknownPlayError carrying that play id; the error return
carries no text at all, so no partial statement is emitted. -/
theorem unknown_play_aborts (invoice : Invoice) (plays : Plays)
    (hgenres : ∀ entry ∈ plays,
      entry.2.type = PlayType.Tragedy ∨ entry.2.type = PlayType.Comedy)
    (hbad : ∃ perf ∈ invoice.performances, plays.lookup perf.play_id = none) :
    ∃ perf ∈ invoice.performances, plays.lookup perf.play_id = none ∧
      statement invoice plays = Except.error (StatementError.unknownPlay perf.play_id) ∧
      make_statement_data invoice plays =
        Except.error (StatementError.unknownPlay perf.play_id) := by
  obtain ⟨perf, hmem, hlook, herr⟩ :=
    mapE_enrich_unknown_play plays hgenres invoice.performances hbad
  have hcongr : mapE (Statement.enrich_performance plays) invoice.performances =
      mapE (enrich_performance plays) invoice.performances :=
    mapE_congr (fun z hz => enrich_drafts_eq plays z)
  exact ⟨perf, hmem, hlook, statement_eq_error (hcongr.trans herr),
    make_statement_data_eq_error herr⟩

/-- An invoice referencing a play id absent from the BigCo catalog. -/
def macbeth_invoice : Invoice :=
  { customer := "BigCo"
    performances := [{ play_id := "macbeth", audience := 20 }] }

/-- Witness for unknown_play_aborts: the macbeth line is absent from the
BigCo catalog, so the whole call fails with UnknownPlayError. -/
theorem unknown_play_aborts_witness :
    ∃ perf ∈ macbeth_invoice.performances, bigco_plays.lookup perf.play_id = none ∧
      statement macbeth_invoice bigco_plays =
        Except.error (StatementError.unknownPlay perf.play_id) ∧
      make_statement_data macbeth_invoice bigco_plays =
        Except.error (StatementError.unknownPlay perf.play_id) :=
  unknown_play_aborts macbeth_invoice bigco_plays (by decide)
    ⟨{ play_id := "macbeth", audience := 20 }, by decide, rfl⟩

/-- Claim C6: the canonical BigCo fixture produces exactly the reference
plain-text report, with line amounts 65000, 58000 and 50000 cents, total
173000 cents and 47 total credits (the data literal bigco_data). -/
theorem statement_bigco :
    statement bigco_invoice bigco_plays = Except.ok
      "Statement for BigCo\n  Hamlet: $650.00 (55 seats)\n  As You Like It: $580.00 (35 seats)\n  Othello: $500.00 (40 seats)\nAmount owed is $1,730.00\nYou earned 47 credits\n" ∧
    make_statement_data bigco_invoice bigco_plays = Except.ok bigco_data :=
  ⟨rfl, rfl⟩

set_option maxRecDepth 8192 in
/-- Claim C8 (modelled from the spec, the definition of html_statement being
absent from the sources): html_statement renders the very StatementData of
the data-building pipeline as HTML, and on the canonical BigCo fixture it
returns the expected table and summary with total $1,730.00 and 47
credits. -/
theorem html_statement_bigco :
    html_statement bigco_invoice bigco_plays =
      (make_statement_data bigco_invoice bigco_plays).map render_html ∧
    html_statement bigco_invoice bigco_plays = Except.ok
      "<h1>Statement for BigCo</h1>\n<table>\n  <tr><th>play</th><th>seats</th><th>cost</th></tr>\n  <tr><td>Hamlet</td><td>55</td><td>$650.00</td></tr>\n  <tr><td>As You Like It</td><td>35</td><td>$580.00</td></tr>\n  <tr><td>Othello</td><td>40</td><td>$500.00</td></tr>\n</table>\n<p>Amount owed is <em>$1,730.00</em></p>\n<p>You earned <em>47</em> credits</p>\n" :=
  ⟨rfl, rfl⟩
